import Mathlib

/-!
Verification of the request-processing core of the Express/TypeScript
boilerplate: schema-driven input validation, the paginated/sortable
item service and repository, token-based authentication, and the
centralized error middleware.

Each definition is a shallow embedding of one source function, keeping
the source's names. Stateful MySQL access is modelled by explicit
passing of the `items` table as a list of rows; thrown exceptions are
modelled with `Except`; JavaScript `undefined` is modelled with
`Option`.
-/

/-- Validated environment configuration (`src/config/env.ts`), restricted
to the fields the modelled components read. The Zod env schema guarantees
`JWT_EXPIRY`, `DEFAULT_PAGE_LIMIT` and `MAX_PAGE_LIMIT` are positive
integers; theorems take those facts as hypotheses where they matter. -/
structure Env where
  NODE_ENV : String
  JWT_SECRET : String
  PASSWORD_HASH : String
  JWT_EXPIRY : Nat
  DEFAULT_PAGE_LIMIT : Nat
  MAX_PAGE_LIMIT : Nat
deriving DecidableEq

/-- A row of the `items` table (`ItemSchema` in `src/schemas/itemSchema.ts`):
integer id, name, nullable description, and two store-assigned timestamps
(modelled as naturals). -/
structure Item where
  id : Nat
  name : String
  description : Option String
  created_at : Nat
  updated_at : Nat
deriving DecidableEq

/-- The `items` table contents, in insertion order. -/
abbrev Store := List Item

/-- `UpdateItem` (`UpdateItemSchema.parse` output): both fields optional;
`none` models an absent key, which is distinct from an empty string. -/
structure UpdateItem where
  name : Option String
  description : Option String
deriving DecidableEq

/-- `ResultSetHeader` as observed by the service layer: the mutation
row counts reported by mysql2. -/
structure ResultSetHeader where
  affectedRows : Nat
  changedRows : Nat
deriving DecidableEq

namespace ItemRepository

/-- Whitelist of sort fields (`ALLOWED_SORT_FIELDS` in
`src/repositories/itemRepository.ts`). -/
def ALLOWED_SORT_FIELDS : List String := ["id", "name", "created_at", "updated_at"]

/-- Whitelist of sort directions (`ALLOWED_SORT_DIRECTIONS`). -/
def ALLOWED_SORT_DIRECTIONS : List String := ["ASC", "DESC"]

/-- `toUpperCase` on the character list (the repository only ever
uppercases plain ASCII direction strings). -/
def jsToUpperCase (s : String) : String := ⟨s.data.map Char.toUpper⟩

/-- Key comparison backing `ORDER BY <field> ASC` for one whitelisted
column; any non-whitelisted name already collapsed to `created_at`
before this is called. -/
def fieldLe (field : String) (a b : Item) : Bool :=
  if field = "id" then a.id ≤ b.id
  else if field = "name" then a.name ≤ b.name
  else if field = "updated_at" then a.updated_at ≤ b.updated_at
  else a.created_at ≤ b.created_at

/-- Insertion step of the deterministic sort modelling the SQL `ORDER BY`. -/
def insertLe (le : Item → Item → Bool) (a : Item) : List Item → List Item
  | [] => [a]
  | b :: bs => if le a b then a :: b :: bs else b :: insertLe le a bs

/-- Deterministic (stable insertion) sort modelling the SQL `ORDER BY`. -/
def sortWith (le : Item → Item → Bool) : List Item → List Item
  | [] => []
  | a :: as => insertLe le a (sortWith le as)

/-- `SELECT * FROM items ORDER BY <field> <dir>`: sort ascending on the
field, or on the reversed comparison for `DESC`. -/
def orderBy (field dir : String) (store : Store) : List Item :=
  sortWith (fun a b => if dir = "ASC" then fieldLe field a b else fieldLe field b a) store

/-- `findAll(limit, offset, sortBy = 'created_at', sortDirection = 'DESC')`:
whitelist both sort parameters (silent fallback to `created_at` / `DESC`),
then `SELECT * FROM items ORDER BY ... LIMIT ? OFFSET ?`. The TS default
parameter values are modelled with `Option` plus `getD`. -/
def findAll (store : Store) (limit offset : Nat) (sortBy : Option String)
    (sortDirection : Option String) : List Item :=
  let sortBy := sortBy.getD "created_at"
  let sortDirection := sortDirection.getD "DESC"
  let safeSortBy := if ALLOWED_SORT_FIELDS.contains sortBy then sortBy else "created_at"
  let safeSortDir :=
    if ALLOWED_SORT_DIRECTIONS.contains (jsToUpperCase sortDirection) then jsToUpperCase sortDirection
    else "DESC"
  ((orderBy safeSortBy safeSortDir store).drop offset).take limit

/-- `countAll()`: `SELECT COUNT(*) FROM items`. -/
def countAll (store : Store) : Nat := store.length

/-- `findById(id)`: `SELECT * FROM items WHERE id = ?`, `rows[0] ?? null`. -/
def findById (store : Store) (id : Nat) : Option Item :=
  store.find? (fun it => it.id == id)

/-- Effect of `UPDATE items SET ... WHERE id = ?` on one row: only the
fields present in the patch are overwritten. -/
def applyPatch (patch : UpdateItem) (it : Item) : Item :=
  { it with
    name := patch.name.getD it.name
    description := match patch.description with
      | some d => some d
      | none => it.description }

/-- Outcome of `update`: the table afterwards, the result header, and the
SQL text that was executed (`none` when the empty-patch branch returned
without issuing any statement). -/
structure UpdateOutcome where
  store : Store
  header : ResultSetHeader
  executedSql : Option String
deriving DecidableEq

/-- `update(id, patch)`: accumulate `field = ?` fragments for the fields
present in the patch; if none, return an empty `ResultSetHeader` without
touching the store; otherwise execute the dynamically built `UPDATE`. -/
def update (store : Store) (id : Nat) (patch : UpdateItem) : UpdateOutcome :=
  let fields := (if patch.name.isSome then ["name = ?"] else [])
    ++ (if patch.description.isSome then ["description = ?"] else [])
  if fields.isEmpty then
    { store := store, header := { affectedRows := 0, changedRows := 0 }, executedSql := none }
  else
    { store := store.map (fun it => if it.id == id then applyPatch patch it else it)
      header :=
        { affectedRows := (store.filter (fun it => it.id == id)).length
          changedRows := (store.filter (fun it => it.id == id && applyPatch patch it != it)).length }
      executedSql := some ("UPDATE items SET " ++ String.intercalate ", " fields ++ " WHERE id = ?") }

/-- `remove(id)`: `DELETE FROM items WHERE id = ?`. -/
def remove (store : Store) (id : Nat) : Store × ResultSetHeader :=
  (store.filter (fun it => it.id != id),
   { affectedRows := (store.filter (fun it => it.id == id)).length, changedRows := 0 })

end ItemRepository

/-- `HttpError` (`src/utils/HttpError.ts`): a typed business error with an
HTTP status code, thrown by services and mapped by `errorMiddleware`. -/
structure HttpError where
  statusCode : Nat
  message : String
deriving DecidableEq

namespace ItemService

/-- The pagination envelope returned by `listItems`. -/
structure Pagination where
  total : Nat
  page : Nat
  limit : Nat
  totalPages : Nat
deriving DecidableEq

/-- Return value of `listItems`. -/
structure ListResult where
  data : List Item
  pagination : Pagination
deriving DecidableEq

/-- `listItems(page = 1, limit?, sortBy?, sortDirection?)` from
`src/services/itemService.ts`: clamp the page size, derive the offset,
normalize the direction, fetch the page and the full count, and build the
envelope with `totalPages = Math.ceil(total / pageLimit)` (for positive
`pageLimit` the natural-number formula `(total + pageLimit - 1) / pageLimit`
agrees with the JS ceiling of the exact division). -/
def listItems (env : Env) (store : Store) (page : Nat) (limit : Option Nat)
    (sortBy : Option String) (sortDirection : Option String) : ListResult :=
  let pageLimit := min (limit.getD env.DEFAULT_PAGE_LIMIT) env.MAX_PAGE_LIMIT
  let offset := (page - 1) * pageLimit
  let direction :=
    if (sortDirection.map ItemRepository.jsToUpperCase) = some "ASC" then "ASC" else "DESC"
  let items := ItemRepository.findAll store pageLimit offset sortBy (some direction)
  let total := ItemRepository.countAll store
  { data := items
    pagination :=
      { total := total, page := page, limit := pageLimit
        totalPages := (total + pageLimit - 1) / pageLimit } }

/-- `getItem(id)`: throws `HttpError(404, 'Item introuvable')` when
`findById` yields no row. -/
def getItem (store : Store) (id : Nat) : Except HttpError Item :=
  match ItemRepository.findById store id with
  | some it => .ok it
  | none => .error { statusCode := 404, message := "Item introuvable" }

/-- `updateItem(id, patch)`: existence check via `getItem` first (its 404
propagates), then the repository update. -/
def updateItem (store : Store) (id : Nat) (patch : UpdateItem) :
    Except HttpError ItemRepository.UpdateOutcome :=
  match getItem store id with
  | .error e => .error e
  | .ok _ => .ok (ItemRepository.update store id patch)

/-- `deleteItem(id)`: existence check via `getItem` first (its 404
propagates), then the repository delete. -/
def deleteItem (store : Store) (id : Nat) :
    Except HttpError (Store × ResultSetHeader) :=
  match getItem store id with
  | .error e => .error e
  | .ok _ => .ok (ItemRepository.remove store id)

/-- Table contents after a `PATCH /items/:id` call: when the service
throws, no statement ran and the table is untouched. -/
def storeAfterUpdate (store : Store) (id : Nat) (patch : UpdateItem) : Store :=
  match updateItem store id patch with
  | .error _ => store
  | .ok o => o.store

/-- Table contents after a `DELETE /items/:id` call: when the service
throws, no statement ran and the table is untouched. -/
def storeAfterDelete (store : Store) (id : Nat) : Store :=
  match deleteItem store id with
  | .error _ => store
  | .ok (s, _) => s

end ItemService

/-- The runtime classes an error reaching `errorMiddleware` can belong to.
`genericError` stands for any error outside the recognized classes. -/
inductive JsError where
  | httpError (statusCode : Nat) (message : String)
  | zodError (issues : List String)
  | jsonWebTokenError (message : String)
  | tokenExpiredError (message : String)
  | genericError (message : String) (stack : String)
deriving DecidableEq

namespace JsError

/-- `err instanceof HttpError`. -/
def isHttpError : JsError → Bool
  | .httpError _ _ => true
  | _ => false

/-- `err instanceof z.ZodError`. -/
def isZodError : JsError → Bool
  | .zodError _ => true
  | _ => false

/-- `err instanceof jwt.JsonWebTokenError`. In the jsonwebtoken library
`TokenExpiredError` is declared as a subclass of `JsonWebTokenError`, so an
expired-token error satisfies this `instanceof` check too. -/
def isJsonWebTokenError : JsError → Bool
  | .jsonWebTokenError _ => true
  | .tokenExpiredError _ => true
  | _ => false

/-- `err instanceof jwt.TokenExpiredError`. -/
def isTokenExpiredError : JsError → Bool
  | .tokenExpiredError _ => true
  | _ => false

/-- `err.message`. Only read by the middleware in the `HttpError` and
unclassified branches; a `ZodError` never reaches a read of this field. -/
def errMessage : JsError → String
  | .httpError _ m => m
  | .zodError _ => ""
  | .jsonWebTokenError m => m
  | .tokenExpiredError m => m
  | .genericError m _ => m

/-- `err.statusCode`, only read under the `isHttpError` guard. -/
def errStatusCode : JsError → Nat
  | .httpError s _ => s
  | _ => 0

/-- `err.issues`, only read under the `isZodError` guard. -/
def errIssues : JsError → List String
  | .zodError i => i
  | _ => []

/-- `err.stack`, only read in the unclassified branch. -/
def errStack : JsError → String
  | .genericError _ s => s
  | _ => ""

end JsError

/-- JSON error envelope produced by `errorResponse(message, details?)`. -/
structure ErrorBody where
  error : String
  details : Option (List String)
deriving DecidableEq

/-- Observable actions of `errorMiddleware`, in execution order:
`logger.error` calls and the one `res.status(...).json(...)`. -/
inductive MwEvent where
  | logged (message : String) (context : List (String × String))
  | responded (status : Nat) (body : ErrorBody)
deriving DecidableEq

/-- `errorMiddleware(err, req, res, next)` from
`src/middleware/errorMiddleware.ts`: the `instanceof` dispatch chain in
source order, ending with the unclassified branch that logs and then
answers 500 (generic message in production, `err.message` otherwise). -/
def errorMiddleware (env : Env) (err : JsError) : List MwEvent :=
  if err.isHttpError then
    [.responded err.errStatusCode { error := err.errMessage, details := none }]
  else if err.isZodError then
    [.responded 400 { error := "Données invalides", details := some err.errIssues }]
  else if err.isJsonWebTokenError then
    [.responded 401 { error := "Token invalide", details := none }]
  else if err.isTokenExpiredError then
    [.responded 401 { error := "Token expiré", details := none }]
  else
    [.logged "Erreur non gérée" [("message", err.errMessage), ("stack", err.errStack)],
     .responded 500
       { error := if env.NODE_ENV = "production" then "Erreur serveur" else err.errMessage
         details := none }]

/-- Decoded JWT payload carried by the application
(`{ authenticated, timestamp }`). -/
structure AuthPayload where
  authenticated : Bool
  timestamp : Nat
deriving DecidableEq

/-- The two token transports `authMiddleware` reads:
`request.headers.authorization` and `request.cookies?.authToken`.
`none` models an absent header/cookie (JS `undefined`). -/
structure AuthRequest where
  authorization : Option String
  authTokenCookie : Option String
deriving DecidableEq

/-- `s.startsWith(p)` executed on the character lists (identical to the
byte-based JS semantics for the ASCII strings involved). -/
def strStartsWith (s p : String) : Bool := p.data.isPrefixOf s.data

/-- `s.slice(n)` for a non-negative index. -/
def jsSlice (s : String) (n : Nat) : String := ⟨s.data.drop n⟩

/-- `authHeader?.startsWith('Bearer ') ? authHeader.slice(7) : undefined`. -/
def headerToken (authHeader : Option String) : Option String :=
  match authHeader with
  | some h => if strStartsWith h "Bearer " then some (jsSlice h 7) else none
  | none => none

/-- JavaScript `a || b` on string-or-undefined values: `undefined` and the
empty string are falsy and fall through to `b`. -/
def jsOrString (a b : Option String) : Option String :=
  match a with
  | some s => if s = "" then b else some s
  | none => b

/-- The token-candidate extraction of `authMiddleware`:
`(authHeader?.startsWith('Bearer ') ? authHeader.slice(7) : undefined) || request.cookies?.authToken`. -/
def extractToken (req : AuthRequest) : Option String :=
  jsOrString (headerToken req.authorization) req.authTokenCookie

/-- Observable outcome of `authMiddleware`: a direct 401 response, an
error forwarded to `errorMiddleware` via `next(error)`, or `next()` with
`request.user` populated. -/
inductive AuthResult where
  | respond (status : Nat) (body : ErrorBody)
  | forward (err : JsError)
  | proceed (user : AuthPayload)
deriving DecidableEq

/-- `authMiddleware` from `src/middleware/authMiddleware.ts`,
parameterized by the cryptographic `jwt.verify(·, JWT_SECRET)`: extract
the candidate token; a falsy candidate (`undefined` or empty) answers 401
missing-token directly; otherwise verify, attach the decoded payload, and
forward any thrown verification error. -/
def authMiddleware (verify : String → Except JsError AuthPayload) (req : AuthRequest) :
    AuthResult :=
  match extractToken req with
  | none => .respond 401 { error := "Token d\x27authentification manquant", details := none }
  | some t =>
    if t = "" then
      .respond 401 { error := "Token d\x27authentification manquant", details := none }
    else
      match verify t with
      | .ok decoded =>
        .proceed { authenticated := decoded.authenticated, timestamp := decoded.timestamp }
      | .error e => .forward e

/-- The `Set-Cookie` attributes used by `res.cookie('authToken', ...)`. -/
structure SetCookie where
  name : String
  value : String
  httpOnly : Bool
  secure : Bool
  sameSite : String
  maxAge : Nat
deriving DecidableEq

/-- JSON body of a login response. -/
inductive LoginBody where
  | failure (error : String)
  | success (token : String)
deriving DecidableEq

/-- Full observable login response: status, optional cookie, body. -/
structure LoginResponse where
  status : Nat
  cookie : Option SetCookie
  body : LoginBody
deriving DecidableEq

/-- `loginHandler` from `src/controllers/authController.ts`, parameterized
by `bcrypt.compare` and `jwt.sign`: on hash mismatch answer 401 with no
cookie; on match sign `{ authenticated: true, timestamp: Date.now() }` and
send the one token both as the `authToken` HttpOnly cookie and in the JSON
success body. -/
def loginHandler (compare : String → String → Bool)
    (sign : Bool → Nat → String → Nat → String)
    (env : Env) (password : String) (now : Nat) : LoginResponse :=
  if !(compare password env.PASSWORD_HASH) then
    { status := 401, cookie := none, body := .failure "Mot de passe incorrect" }
  else
    let token := sign true now env.JWT_SECRET env.JWT_EXPIRY
    { status := 200
      cookie := some
        { name := "authToken", value := token, httpOnly := true
          secure := env.NODE_ENV = "production", sameSite := "strict"
          maxAge := env.JWT_EXPIRY * 1000 }
      body := .success token }

namespace ItemSchema

/-- `ItemSortFieldEnum` values (`src/schemas/itemSchema.ts`). -/
def ItemSortFieldValues : List String := ["id", "name", "created_at", "updated_at"]

/-- `SortDirectionEnum` values (`src/schemas/commonSchema.ts`). -/
def SortDirectionValues : List String := ["asc", "desc"]

/-- Raw query string parameters of `GET /api/items` before validation. -/
structure RawListQuery where
  page : Option String
  limit : Option String
  sortBy : Option String
  sortDirection : Option String
deriving DecidableEq

/-- `ListItemsQuerySchema.parse` output. -/
structure ListItemsQuery where
  page : Option Nat
  limit : Option Nat
  sortBy : Option String
  sortDirection : Option String
deriving DecidableEq

/-- Decimal value of a digit string. -/
def digitsToNat (cs : List Char) : Nat :=
  cs.foldl (fun acc c => acc * 10 + (c.toNat - 48)) 0

/-- `z.coerce.number().int().positive()` applied to one query-string value:
`Number(s)` restricted to plain decimal-digit strings (the only strings
both JS and this model accept as positive integers), then the integer and
positivity checks. -/
def coercePositiveInt (s : String) : Option Nat :=
  if s.data ≠ [] ∧ s.data.all Char.isDigit then
    let n := digitsToNat s.data
    if 0 < n then some n else none
  else none

/-- `ListItemsQuerySchema.parse(req.query)`: every present field must pass
its check (`limit`/`page` positive-int coercion, `sortBy` in
`ItemSortFieldEnum`, `sortDirection` in `SortDirectionEnum`); absent
fields stay absent; any violation raises a `ZodError` carrying one issue
per violated constraint. -/
def parseListItemsQuery (q : RawListQuery) : Except (List String) ListItemsQuery :=
  let limitIssues := match q.limit with
    | none => []
    | some s => if (coercePositiveInt s).isSome then [] else ["limit: expected positive integer"]
  let pageIssues := match q.page with
    | none => []
    | some s => if (coercePositiveInt s).isSome then [] else ["page: expected positive integer"]
  let sortByIssues := match q.sortBy with
    | none => []
    | some s => if ItemSortFieldValues.contains s then [] else ["sortBy: invalid enum value"]
  let sortDirectionIssues := match q.sortDirection with
    | none => []
    | some s => if SortDirectionValues.contains s then [] else ["sortDirection: invalid enum value"]
  let issues := limitIssues ++ pageIssues ++ sortByIssues ++ sortDirectionIssues
  if issues.isEmpty then
    .ok { page := q.page.bind coercePositiveInt, limit := q.limit.bind coercePositiveInt
          sortBy := q.sortBy, sortDirection := q.sortDirection }
  else
    .error issues

end ItemSchema

/-- Observable outcome of a full `GET /api/items` request. -/
inductive ListReply where
  | success (result : ItemService.ListResult)
  | errorEvents (events : List MwEvent)
deriving DecidableEq

/-- The `GET /api/items` pipeline
(`validateQuery(ListItemsQuerySchema)` then `listItemsHandler`): a
validation failure throws a `ZodError` that `errorMiddleware` turns into
the 400 response; otherwise the controller calls
`listItems(page ?? 1, limit, sortBy, sortDirection)` and answers 200. -/
def listItemsRequest (env : Env) (store : Store) (q : ItemSchema.RawListQuery) : ListReply :=
  match ItemSchema.parseListItemsQuery q with
  | .error issues => .errorEvents (errorMiddleware env (.zodError issues))
  | .ok parsed =>
    .success (ItemService.listItems env store (parsed.page.getD 1) parsed.limit
      parsed.sortBy parsed.sortDirection)

-- sanity checks of the executable model
example : ItemRepository.jsToUpperCase "desc" = "DESC" := by decide
example : ItemRepository.findById [⟨1, "a", none, 0, 0⟩] 2 = none := by decide
example :
    (ItemService.listItems ⟨"development", "s", "h", 86400, 10, 100⟩
      [⟨1, "a", none, 0, 0⟩] 1 (some 5) none none).pagination.totalPages = 1 := by decide
example : extractToken ⟨some "Bearer tok", some "cook"⟩ = some "tok" := by decide
example : extractToken ⟨some "Bearer ", some "cook"⟩ = some "cook" := by decide
example : ItemSchema.coercePositiveInt "12" = some 12 := by decide
example : ItemSchema.coercePositiveInt "0" = none := by decide
example : ItemSchema.coercePositiveInt "12.5" = none := by decide

/-- A development-mode environment used to instantiate theorems. -/
def testEnv : Env :=
  { NODE_ENV := "development", JWT_SECRET := "secret", PASSWORD_HASH := "pw-hash"
    JWT_EXPIRY := 86400, DEFAULT_PAGE_LIMIT := 10, MAX_PAGE_LIMIT := 100 }

/-- A small concrete `items` table used to instantiate theorems. -/
def sampleStore : Store :=
  [⟨1, "alpha", none, 100, 100⟩, ⟨2, "beta", some "b", 200, 250⟩, ⟨3, "gamma", none, 300, 300⟩]

-- ── general lemmas about the embedded operations ──

theorem ItemRepository.length_insertLe (le : Item → Item → Bool) (a : Item) :
    ∀ l : List Item, (ItemRepository.insertLe le a l).length = l.length + 1 := by
  intro l
  induction l with
  | nil => rfl
  | cons b bs ih =>
    simp only [ItemRepository.insertLe]
    split
    · simp
    · simp [ih]

theorem ItemRepository.length_sortWith (le : Item → Item → Bool) :
    ∀ l : List Item, (ItemRepository.sortWith le l).length = l.length := by
  intro l
  induction l with
  | nil => rfl
  | cons a as ih =>
    simp only [ItemRepository.sortWith]
    rw [ItemRepository.length_insertLe, ih, List.length_cons]

theorem ItemRepository.length_orderBy (field dir : String) (store : Store) :
    (ItemRepository.orderBy field dir store).length = store.length :=
  ItemRepository.length_sortWith _ store

theorem ItemRepository.findById_remove (store : Store) (id : Nat) :
    ItemRepository.findById (ItemRepository.remove store id).1 id = none := by
  apply List.find?_eq_none.mpr
  intro x hx
  have hfil : (ItemRepository.remove store id).1 = store.filter (fun it => it.id != id) := rfl
  rw [hfil, List.mem_filter] at hx
  have hne : x.id ≠ id := by simpa using hx.2
  simp [hne]

/-- The natural-number formula used by `listItems` agrees with the exact
rational ceiling `Math.ceil` computes, for a positive divisor. -/
theorem natCeilFormula_eq_ceil (t L : Nat) (hL : 0 < L) :
    (t + L - 1) / L = ⌈(t : ℚ) / (L : ℚ)⌉₊ := by
  have hLQ : (0 : ℚ) < (L : ℚ) := by exact_mod_cast hL
  rcases Nat.eq_zero_or_pos t with ht | ht
  · subst ht
    simp
    exact Nat.div_eq_of_lt (by omega)
  · set n := (t + L - 1) / L with hn
    have hub : n * L ≤ t + L - 1 := (Nat.le_div_iff_mul_le hL).mp (le_of_eq hn.symm)
    have hlb : t + L - 1 < (n + 1) * L := (Nat.div_lt_iff_lt_mul hL).mp (by omega)
    have hn1 : 1 ≤ n := by
      rw [hn, Nat.le_div_iff_mul_le hL]
      omega
    have hmul1 : (n - 1) * L = n * L - L := by rw [Nat.sub_mul, one_mul]
    have hmul2 : (n + 1) * L = n * L + L := by rw [Nat.add_mul, one_mul]
    have hmul3 : 1 * L ≤ n * L := Nat.mul_le_mul_right L hn1
    have h1 : (n - 1) * L < t := by omega
    have h2 : t ≤ n * L := by omega
    symm
    rw [Nat.ceil_eq_iff (by omega)]
    constructor
    · rw [lt_div_iff₀ hLQ]
      calc ((n - 1 : ℕ) : ℚ) * (L : ℚ) = (((n - 1) * L : ℕ) : ℚ) := by push_cast; ring
        _ < (t : ℚ) := by exact_mod_cast h1
    · rw [div_le_iff₀ hLQ]
      calc (t : ℚ) ≤ ((n * L : ℕ) : ℚ) := by exact_mod_cast h2
        _ = (n : ℚ) * (L : ℚ) := by push_cast; ring

/-- `t ≤ ceil(t / L) * L` for the natural-number ceiling formula. -/
theorem le_natCeilFormula_mul (t L : Nat) (hL : 0 < L) :
    t ≤ ((t + L - 1) / L) * L := by
  set n := (t + L - 1) / L with hn
  have hlb : t + L - 1 < (n + 1) * L := (Nat.div_lt_iff_lt_mul hL).mp (by omega)
  have hmul2 : (n + 1) * L = n * L + L := by rw [Nat.add_mul, one_mul]
  omega

-- ── claim theorems ──

/-- Claim C1 (evidence of the code bug): an expired-token error reaching
`errorMiddleware` is answered 401 with the fixed "invalid" message, not
the "expired" one. The `instanceof JsonWebTokenError` check precedes the
`instanceof TokenExpiredError` check, and in the jsonwebtoken library
`TokenExpiredError` is a subclass of `JsonWebTokenError`, so the expired
branch — which the middleware's own doc table says answers "Token expiré"
— is unreachable. -/
theorem expiredToken_gets_invalid_message (env : Env) (m : String) :
    errorMiddleware env (JsError.tokenExpiredError m) =
      [MwEvent.responded 401 { error := "Token invalide", details := none }]
    ∧ "Token invalide" ≠ "Token expiré" :=
  ⟨rfl, by decide⟩

/-- Claim C9: every unclassified error is recorded to the logger — with
its message and stack — strictly before the response is emitted, in every
environment mode; the 500 body carries the fixed generic message in
production mode and the underlying message otherwise. -/
theorem unclassified_logged_before_response (env : Env) (m s : String) :
    errorMiddleware env (JsError.genericError m s) =
      [MwEvent.logged "Erreur non gérée" [("message", m), ("stack", s)],
       MwEvent.responded 500
         { error := if env.NODE_ENV = "production" then "Erreur serveur" else m
           details := none }] :=
  rfl

/-- Claim C7: token extraction prefers a bearer-scheme Authorization
header carrying a non-empty token over the `authToken` cookie (the header
wins whenever it yields a token); and when neither source yields a token
the middleware answers the fixed missing-token 401 directly, without the
outcome depending on the verification function at all. -/
theorem authMiddleware_header_precedence (t : String) (cookie : Option String)
    (ht : t ≠ "") :
    extractToken { authorization := some ("Bearer " ++ t), authTokenCookie := cookie } = some t
    ∧ ∀ (req : AuthRequest) (v w : String → Except JsError AuthPayload),
        (extractToken req = none ∨ extractToken req = some "") →
        authMiddleware v req =
          AuthResult.respond 401
            { error := "Token d\x27authentification manquant", details := none }
        ∧ authMiddleware v req = authMiddleware w req := by
  constructor
  · have h1 : strStartsWith ("Bearer " ++ t) "Bearer " = true := by
      simp [strStartsWith, String.data_append]
    have h2 : jsSlice ("Bearer " ++ t) 7 = t := by
      simp [jsSlice, String.data_append]
    simp [extractToken, headerToken, h1, h2, jsOrString, ht]
  · intro req v w hfalsy
    rcases hfalsy with hnone | hempty
    · constructor <;> simp [authMiddleware, hnone]
    · constructor <;> simp [authMiddleware, hempty]

theorem authMiddleware_header_precedence_witness :
    (extractToken { authorization := some ("Bearer " ++ "tok"), authTokenCookie := some "cook" }
      = some "tok")
    ∧ authMiddleware (fun _ => Except.error (JsError.jsonWebTokenError "bad"))
        { authorization := none, authTokenCookie := none } =
        AuthResult.respond 401
          { error := "Token d\x27authentification manquant", details := none } :=
  ⟨(authMiddleware_header_precedence "tok" (some "cook") (by decide)).1,
   ((authMiddleware_header_precedence "tok" (some "cook") (by decide)).2
      { authorization := none, authTokenCookie := none }
      (fun _ => Except.error (JsError.jsonWebTokenError "bad"))
      (fun _ => Except.error (JsError.jsonWebTokenError "other"))
      (Or.inl (by decide))).1⟩

/-- Claim C10: the Authorization header contributes the candidate token
only when it starts with the `Bearer ` scheme prefix and the part after
the prefix is non-empty; with the header absent, using another scheme, or
exactly `Bearer `, the falsy header extraction falls through `||` to the
`authToken` cookie value. -/
theorem header_fallthrough_to_cookie (h cookie : Option String)
    (hcase : h = none
      ∨ (∃ s, h = some s ∧ strStartsWith s "Bearer " = false)
      ∨ h = some "Bearer ") :
    extractToken { authorization := h, authTokenCookie := cookie } = cookie := by
  rcases hcase with rfl | ⟨s, rfl, hs⟩ | rfl
  · rfl
  · simp [extractToken, headerToken, hs, jsOrString]
  · have hb : headerToken (some "Bearer ") = some "" := by decide
    simp [extractToken, hb, jsOrString]

theorem header_fallthrough_to_cookie_witness :
    extractToken { authorization := some "Basic abc", authTokenCookie := some "ctok" }
      = some "ctok"
    ∧ extractToken { authorization := some "Bearer ", authTokenCookie := some "ctok" }
      = some "ctok" :=
  ⟨header_fallthrough_to_cookie (some "Basic abc") (some "ctok")
      (Or.inr (Or.inl ⟨"Basic abc", rfl, by decide⟩)),
   header_fallthrough_to_cookie (some "Bearer ") (some "ctok")
      (Or.inr (Or.inr rfl))⟩

/-- Claim C8: a login with a credential that fails the bcrypt comparison
answers 401 with no cookie set; a login with the matching credential
answers 200, sets the `authToken` cookie with HttpOnly enabled, and the
cookie carries the very token value returned in the JSON success body. -/
theorem loginHandler_credentials (compare : String → String → Bool)
    (sign : Bool → Nat → String → Nat → String) (env : Env) (password : String) (now : Nat) :
    (compare password env.PASSWORD_HASH = false →
      loginHandler compare sign env password now =
        { status := 401, cookie := none, body := .failure "Mot de passe incorrect" })
    ∧ (compare password env.PASSWORD_HASH = true →
        ∃ tok, loginHandler compare sign env password now =
          { status := 200
            cookie := some
              { name := "authToken", value := tok, httpOnly := true
                secure := env.NODE_ENV = "production", sameSite := "strict"
                maxAge := env.JWT_EXPIRY * 1000 }
            body := .success tok }) := by
  constructor
  · intro hno
    simp [loginHandler, hno]
  · intro hyes
    exact ⟨sign true now env.JWT_SECRET env.JWT_EXPIRY, by simp [loginHandler, hyes]⟩

theorem loginHandler_credentials_witness :
    loginHandler (fun p h => p == h) (fun _ _ _ _ => "tok") testEnv "wrong" 0 =
      { status := 401, cookie := none, body := .failure "Mot de passe incorrect" }
    ∧ ∃ tok, loginHandler (fun p h => p == h) (fun _ _ _ _ => "tok") testEnv "pw-hash" 0 =
        { status := 200
          cookie := some
            { name := "authToken", value := tok, httpOnly := true
              secure := testEnv.NODE_ENV = "production", sameSite := "strict"
              maxAge := testEnv.JWT_EXPIRY * 1000 }
          body := .success tok } :=
  ⟨(loginHandler_credentials (fun p h => p == h) (fun _ _ _ _ => "tok") testEnv "wrong" 0).1
      (by decide),
   (loginHandler_credentials (fun p h => p == h) (fun _ _ _ _ => "tok") testEnv "pw-hash" 0).2
      (by decide)⟩

/-- Claim C5: updating an existing record with a patch in which zero
fields are present succeeds, executes no SQL statement, reports zero
affected rows, and leaves the table identical. -/
theorem updateItem_empty_patch (store : Store) (id : Nat) (it : Item)
    (hfound : ItemRepository.findById store id = some it) :
    ItemService.updateItem store id { name := none, description := none } =
      .ok { store := store, header := { affectedRows := 0, changedRows := 0 }
            executedSql := none }
    ∧ ItemService.storeAfterUpdate store id { name := none, description := none } = store := by
  have h1 : ItemService.getItem store id = .ok it := by
    simp [ItemService.getItem, hfound]
  have h2 : ItemService.updateItem store id ⟨none, none⟩ =
      .ok (ItemRepository.update store id ⟨none, none⟩) := by
    simp [ItemService.updateItem, h1]
  have h3 : ItemRepository.update store id ⟨none, none⟩ =
      { store := store, header := { affectedRows := 0, changedRows := 0 }
        executedSql := none } := rfl
  refine ⟨by rw [h2, h3], ?_⟩
  simp [ItemService.storeAfterUpdate, h2, h3]

theorem updateItem_empty_patch_witness :
    ItemService.updateItem sampleStore 1 { name := none, description := none } =
      .ok { store := sampleStore, header := { affectedRows := 0, changedRows := 0 }
            executedSql := none }
    ∧ ItemService.storeAfterUpdate sampleStore 1 { name := none, description := none }
      = sampleStore :=
  updateItem_empty_patch sampleStore 1 ⟨1, "alpha", none, 100, 100⟩ (by decide)

/-- Claim C6: on an id absent from the store, both Update and Delete fail
with the 404 NotFound error before any mutation, leaving the table
untouched; and after a successful delete the id is gone, so a second
delete of the same id fails with the same 404, never with success. -/
theorem notFound_before_mutation (store : Store) (id : Nat) (patch : UpdateItem) :
    (ItemRepository.findById store id = none →
      ItemService.updateItem store id patch =
        .error { statusCode := 404, message := "Item introuvable" }
      ∧ ItemService.deleteItem store id =
        .error { statusCode := 404, message := "Item introuvable" }
      ∧ ItemService.storeAfterUpdate store id patch = store
      ∧ ItemService.storeAfterDelete store id = store)
    ∧ (∀ (s : Store) (hdr : ResultSetHeader),
        ItemService.deleteItem store id = .ok (s, hdr) →
        ItemService.deleteItem s id =
          .error { statusCode := 404, message := "Item introuvable" }) := by
  constructor
  · intro habsent
    have hget : ItemService.getItem store id =
        .error { statusCode := 404, message := "Item introuvable" } := by
      simp [ItemService.getItem, habsent]
    refine ⟨?_, ?_, ?_, ?_⟩
    · simp [ItemService.updateItem, hget]
    · simp [ItemService.deleteItem, hget]
    · simp [ItemService.storeAfterUpdate, ItemService.updateItem, hget]
    · simp [ItemService.storeAfterDelete, ItemService.deleteItem, hget]
  · intro s hdr hok
    cases hget : ItemService.getItem store id with
    | error e =>
      simp [ItemService.deleteItem, hget] at hok
    | ok found =>
      have hs : s = (ItemRepository.remove store id).1 := by
        simp [ItemService.deleteItem, hget] at hok
        exact congrArg Prod.fst hok.symm
      have habsent : ItemRepository.findById s id = none := by
        rw [hs]
        exact ItemRepository.findById_remove store id
      simp [ItemService.deleteItem, ItemService.getItem, habsent]

theorem notFound_before_mutation_witness :
    (ItemService.updateItem sampleStore 99 { name := some "x", description := none } =
        .error { statusCode := 404, message := "Item introuvable" }
      ∧ ItemService.deleteItem sampleStore 99 =
        .error { statusCode := 404, message := "Item introuvable" }
      ∧ ItemService.storeAfterUpdate sampleStore 99 { name := some "x", description := none }
        = sampleStore
      ∧ ItemService.storeAfterDelete sampleStore 99 = sampleStore)
    ∧ ItemService.deleteItem [⟨2, "beta", some "b", 200, 250⟩, ⟨3, "gamma", none, 300, 300⟩] 1 =
        .error { statusCode := 404, message := "Item introuvable" } :=
  ⟨(notFound_before_mutation sampleStore 99 { name := some "x", description := none }).1
      (by decide),
   (notFound_before_mutation sampleStore 1 { name := some "x", description := none }).2
      [⟨2, "beta", some "b", 200, 250⟩, ⟨3, "gamma", none, 300, 300⟩]
      { affectedRows := 1, changedRows := 0 } rfl⟩

theorem ItemRepository.length_findAll_le (store : Store) (limit offset : Nat)
    (sb sd : Option String) :
    (ItemRepository.findAll store limit offset sb sd).length ≤ limit := by
  simp only [ItemRepository.findAll]
  exact List.length_take_le _ _

theorem ItemRepository.findAll_eq_nil (store : Store) (limit offset : Nat)
    (sb sd : Option String) (h : store.length ≤ offset) :
    ItemRepository.findAll store limit offset sb sd = [] := by
  simp only [ItemRepository.findAll]
  rw [List.drop_eq_nil_of_le]
  · exact List.take_nil
  · rw [ItemRepository.length_orderBy]
    exact h

/-- Claim C4: for valid inputs the effective page size is
`min(limit ?? DEFAULT_PAGE_LIMIT, MAX_PAGE_LIMIT)`, the offset handed to
the repository is `(page - 1) * effectiveLimit`, the returned data never
exceeds the effective limit, and the effective limit never exceeds the
configured maximum. -/
theorem listItems_limit_and_offset (env : Env) (store : Store) (page : Nat)
    (limit : Option Nat) (sortBy sortDirection : Option String)
    (r : ItemService.ListResult)
    (hr : r = ItemService.listItems env store page limit sortBy sortDirection)
    (hpage : 1 ≤ page) :
    r.pagination.limit = min (limit.getD env.DEFAULT_PAGE_LIMIT) env.MAX_PAGE_LIMIT
    ∧ (∃ dir, r.data = ItemRepository.findAll store
        (min (limit.getD env.DEFAULT_PAGE_LIMIT) env.MAX_PAGE_LIMIT)
        ((page - 1) * min (limit.getD env.DEFAULT_PAGE_LIMIT) env.MAX_PAGE_LIMIT)
        sortBy (some dir))
    ∧ r.data.length ≤ min (limit.getD env.DEFAULT_PAGE_LIMIT) env.MAX_PAGE_LIMIT
    ∧ min (limit.getD env.DEFAULT_PAGE_LIMIT) env.MAX_PAGE_LIMIT ≤ env.MAX_PAGE_LIMIT := by
  subst hr
  refine ⟨rfl, ⟨_, rfl⟩, ?_, Nat.min_le_right _ _⟩
  exact ItemRepository.length_findAll_le store _ _ sortBy _

theorem listItems_limit_and_offset_witness :
    (ItemService.listItems testEnv sampleStore 1 (some 250) none none).pagination.limit =
      min (Option.getD (some 250) testEnv.DEFAULT_PAGE_LIMIT) testEnv.MAX_PAGE_LIMIT
    ∧ (ItemService.listItems testEnv sampleStore 1 (some 250) none none).data.length ≤
      min (Option.getD (some 250) testEnv.DEFAULT_PAGE_LIMIT) testEnv.MAX_PAGE_LIMIT :=
  ⟨(listItems_limit_and_offset testEnv sampleStore 1 (some 250) none none _ rfl
      (by decide)).1,
   (listItems_limit_and_offset testEnv sampleStore 1 (some 250) none none _ rfl
      (by decide)).2.2.1⟩

/-- Claim C3: the pagination envelope satisfies
`totalPages = ceil(total / effectiveLimit)` (exact rational ceiling), so
`total = 0` gives `totalPages = 0`; and a page number strictly beyond
`totalPages` yields an empty data set together with the same envelope
(same total, limit and totalPages, only the echoed page differs), never
an error. -/
theorem listItems_pagination_math (env : Env) (store : Store) (page : Nat)
    (limit : Option Nat) (sortBy sortDirection : Option String)
    (r : ItemService.ListResult)
    (hr : r = ItemService.listItems env store page limit sortBy sortDirection)
    (hpage : 1 ≤ page)
    (hdef : 0 < env.DEFAULT_PAGE_LIMIT) (hmax : 0 < env.MAX_PAGE_LIMIT)
    (hlimit : ∀ n, limit = some n → 0 < n) :
    r.pagination.totalPages = ⌈(r.pagination.total : ℚ) / (r.pagination.limit : ℚ)⌉₊
    ∧ (r.pagination.total = 0 → r.pagination.totalPages = 0)
    ∧ (r.pagination.totalPages < page →
        r.data = []
        ∧ r.pagination =
          { (ItemService.listItems env store 1 limit sortBy sortDirection).pagination
            with page := page }) := by
  subst hr
  have hL : 0 < min (limit.getD env.DEFAULT_PAGE_LIMIT) env.MAX_PAGE_LIMIT := by
    rcases limit with _ | n
    · exact lt_min hdef hmax
    · exact lt_min (hlimit n rfl) hmax
  have hlimEq : (ItemService.listItems env store page limit sortBy
      sortDirection).pagination.limit =
      min (limit.getD env.DEFAULT_PAGE_LIMIT) env.MAX_PAGE_LIMIT := rfl
  have htotEq : (ItemService.listItems env store page limit sortBy
      sortDirection).pagination.total = store.length := rfl
  have htpEq : (ItemService.listItems env store page limit sortBy
      sortDirection).pagination.totalPages =
      (store.length + min (limit.getD env.DEFAULT_PAGE_LIMIT) env.MAX_PAGE_LIMIT - 1) /
        min (limit.getD env.DEFAULT_PAGE_LIMIT) env.MAX_PAGE_LIMIT := rfl
  refine ⟨?_, ?_, ?_⟩
  · rw [htpEq, htotEq, hlimEq]
    exact natCeilFormula_eq_ceil store.length _ hL
  · intro h0
    rw [htotEq] at h0
    rw [htpEq, h0]
    exact Nat.div_eq_of_lt (by omega)
  · intro hbeyond
    rw [htpEq] at hbeyond
    have hoff : store.length ≤
        (page - 1) * min (limit.getD env.DEFAULT_PAGE_LIMIT) env.MAX_PAGE_LIMIT := by
      calc store.length
          ≤ ((store.length + min (limit.getD env.DEFAULT_PAGE_LIMIT) env.MAX_PAGE_LIMIT - 1) /
              min (limit.getD env.DEFAULT_PAGE_LIMIT) env.MAX_PAGE_LIMIT) *
              min (limit.getD env.DEFAULT_PAGE_LIMIT) env.MAX_PAGE_LIMIT :=
            le_natCeilFormula_mul _ _ hL
        _ ≤ (page - 1) * min (limit.getD env.DEFAULT_PAGE_LIMIT) env.MAX_PAGE_LIMIT :=
            Nat.mul_le_mul_right _ (by omega)
    exact ⟨ItemRepository.findAll_eq_nil store _ _ sortBy _ hoff, rfl⟩

theorem listItems_pagination_math_witness :
    (ItemService.listItems testEnv sampleStore 5 (some 2) none none).data = []
    ∧ (ItemService.listItems testEnv sampleStore 5 (some 2) none none).pagination.totalPages =
      ⌈((ItemService.listItems testEnv sampleStore 5 (some 2) none none).pagination.total : ℚ) /
        ((ItemService.listItems testEnv sampleStore 5 (some 2) none none).pagination.limit : ℚ)⌉₊ :=
  ⟨((listItems_pagination_math testEnv sampleStore 5 (some 2) none none _ rfl
      (by decide) (by decide) (by decide) (fun n h => by simp at h; omega)).2.2
      (by decide)).1,
   (listItems_pagination_math testEnv sampleStore 5 (some 2) none none _ rfl
      (by decide) (by decide) (by decide) (fun n h => by simp at h; omega)).1⟩

/-- Claim C2 (counterexample): a List request whose `sortBy` is the
malformed value `1=1; DROP` does NOT return the default ordering — it is
rejected by `validateQuery(ListItemsQuerySchema)` with a 400 validation
error, while the same request without `sortBy` succeeds. -/
theorem malformed_sortBy_is_rejected :
    listItemsRequest testEnv sampleStore
      { page := none, limit := none, sortBy := some "1=1; DROP", sortDirection := none } =
      .errorEvents [MwEvent.responded 400
        { error := "Données invalides", details := some ["sortBy: invalid enum value"] }]
    ∧ ∃ res, listItemsRequest testEnv sampleStore
        { page := none, limit := none, sortBy := none, sortDirection := none } =
        .success res :=
  ⟨by decide, ⟨_, rfl⟩⟩

/-- Claim C2 (amended): the silent whitelist fallback lives in the
repository — `findAll` with any non-whitelisted `sortBy` produces exactly
the default (`created_at`) ordering — but at the HTTP boundary a List
request with a non-whitelisted `sortBy` value is rejected by query
validation with the 400 `ZodError` response before the repository is
reached; only an absent `sortBy` reaches the default ordering. -/
theorem sortBy_whitelist_semantics :
    (∀ (store : Store) (limit offset : Nat) (sb : String) (d : Option String),
      ItemRepository.ALLOWED_SORT_FIELDS.contains sb = false →
      ItemRepository.findAll store limit offset (some sb) d =
        ItemRepository.findAll store limit offset none d)
    ∧ (∀ (env : Env) (store : Store) (q : ItemSchema.RawListQuery) (sb : String),
        q.sortBy = some sb → ItemSchema.ItemSortFieldValues.contains sb = false →
        ∃ issues, listItemsRequest env store q =
          .errorEvents [MwEvent.responded 400
            { error := "Données invalides", details := some issues }]) := by
  constructor
  · intro store limit offset sb d hsb
    have hsb' : sb ∉ ItemRepository.ALLOWED_SORT_FIELDS := by simpa using hsb
    have hc : "created_at" ∈ ItemRepository.ALLOWED_SORT_FIELDS := by decide
    simp [ItemRepository.findAll, hsb', hc]
  · intro env store q sb hq hsb
    have hparse : ∃ issues, ItemSchema.parseListItemsQuery q = .error issues := by
      simp only [ItemSchema.parseListItemsQuery, hq, hsb]
      exact ⟨_, if_neg (by
        intro hempty
        rw [List.isEmpty_iff] at hempty
        simp at hempty)⟩
    obtain ⟨issues, hparse⟩ := hparse
    refine ⟨issues, ?_⟩
    simp only [listItemsRequest, hparse]
    rfl

theorem sortBy_whitelist_semantics_witness :
    ItemRepository.findAll sampleStore 5 0 (some "1=1; DROP") (some "ASC") =
      ItemRepository.findAll sampleStore 5 0 none (some "ASC")
    ∧ ∃ issues, listItemsRequest testEnv sampleStore
        { page := some "2", limit := some "5", sortBy := some "1=1; DROP"
          sortDirection := some "asc" } =
        .errorEvents [MwEvent.responded 400
          { error := "Données invalides", details := some issues }] :=
  ⟨sortBy_whitelist_semantics.1 sampleStore 5 0 "1=1; DROP" (some "ASC") (by decide),
   sortBy_whitelist_semantics.2 testEnv sampleStore
     { page := some "2", limit := some "5", sortBy := some "1=1; DROP"
       sortDirection := some "asc" } "1=1; DROP" rfl (by decide)⟩
